import Mathlib

/-!
Verification of the AutoCost server's cost-propagation core.

The embedding models the Prisma-backed store as lists of records and the
Express handlers in `products.controller.ts` and `raw-materials.controller.ts`
as pure functions from a request and a database state to an HTTP response and
a successor state.  Decimal values (costs, percentages) are modelled as exact
rationals.
-/

namespace AutoCost

/-- A row of the `RawMaterial` table (id is the primary key). -/
structure RawMaterial where
  id : String
  name : String
  cost : ℚ
  userId : String
deriving Repr, DecidableEq

/-- A row of the `Product` table (id is the primary key). -/
structure Product where
  id : String
  name : String
  additionalCost : ℚ
  totalCost : ℚ
  userId : String
deriving Repr, DecidableEq

/-- A row of the `ProductIngredient` link table. -/
structure ProductIngredient where
  id : String
  percentage : ℚ
  productId : String
  rawMaterialId : String
deriving Repr, DecidableEq

/-- The persistent store: the three tables relevant to cost propagation. -/
structure DB where
  rawMaterials : List RawMaterial
  products : List Product
  ingredients : List ProductIngredient
deriving Repr, DecidableEq

/-- An entry of the `ingredients` array in a create-product request body. -/
structure IngredientInput where
  rawMaterialId : String
  percentage : ℚ
deriving Repr, DecidableEq

/-- The body of a create-product request together with the authenticated
tenant (`req.userId`). -/
structure CreateProductRequest where
  name : String
  additionalCost : ℚ
  ingredients : List IngredientInput
  userId : String
deriving Repr, DecidableEq

/-- An HTTP response, reduced to the status code and message body used by the
handlers. -/
structure HttpResponse where
  status : Nat
  message : String
deriving Repr, DecidableEq

/-- `prisma.rawMaterial.findFirst({ where: { id, userId } })`. -/
def findFirstRawMaterial (db : DB) (rmId userId : String) : Option RawMaterial :=
  db.rawMaterials.find? (fun rm => rm.id == rmId && rm.userId == userId)

/-- The `for` loop of `calculateProductCost`: accumulates
`rawMaterial.cost * (ingredient.percentage / 100)` over the ingredient inputs,
throwing (as an `Except.error`) when a raw material is not found for the
tenant. -/
def calcLoop (db : DB) (userId : String) : List IngredientInput → ℚ → Except String ℚ
  | [], acc => .ok acc
  | ing :: rest, acc =>
    match findFirstRawMaterial db ing.rawMaterialId userId with
    | none => .error ("Raw material with ID " ++ ing.rawMaterialId ++ " not found.")
    | some rm => calcLoop db userId rest (acc + rm.cost * (ing.percentage / 100))

/-- `calculateProductCost` from `products.controller.ts`: sums the ingredient
contributions, then adds `additionalCost` at the end. -/
def calculateProductCost (ings : List IngredientInput) (additionalCost : ℚ)
    (userId : String) (db : DB) : Except String ℚ :=
  match calcLoop db userId ings 0 with
  | .error e => .error e
  | .ok t => .ok (t + additionalCost)

/-- The cost a lookup by id and tenant resolves to (`0` when unresolved; only
used under a hypothesis that the lookup succeeds). -/
def resolvedCost (db : DB) (userId rmId : String) : ℚ :=
  match findFirstRawMaterial db rmId userId with
  | some rm => rm.cost
  | none => 0

theorem calcLoop_ok (db : DB) (userId : String) :
    ∀ (ings : List IngredientInput) (acc : ℚ),
      (∀ ing ∈ ings, (findFirstRawMaterial db ing.rawMaterialId userId).isSome) →
      calcLoop db userId ings acc =
        .ok (acc + (ings.map
          (fun ing => resolvedCost db userId ing.rawMaterialId * (ing.percentage / 100))).sum)
  | [], acc, _ => by simp [calcLoop]
  | ing :: rest, acc, h => by
    have hhead := h ing (List.mem_cons_self ing rest)
    match hrm : findFirstRawMaterial db ing.rawMaterialId userId with
    | none => rw [hrm] at hhead; simp at hhead
    | some rm =>
      have htail : ∀ i ∈ rest, (findFirstRawMaterial db i.rawMaterialId userId).isSome :=
        fun i hi => h i (List.mem_cons_of_mem ing hi)
      have hres : resolvedCost db userId ing.rawMaterialId = rm.cost := by
        simp [resolvedCost, hrm]
      rw [List.map_cons, List.sum_cons]
      simp only [calcLoop, hrm]
      rw [calcLoop_ok db userId rest (acc + rm.cost * (ing.percentage / 100)) htail, hres,
        add_assoc]

/-- `ingredients.reduce((sum, i) => sum + i.percentage, 0)` in
`createProductHandler`. -/
def totalPercentageOf (ings : List IngredientInput) : ℚ :=
  ings.foldl (fun sum i => sum + i.percentage) 0

/-- `prisma.product.create` with the nested ingredient create: fails (`none`)
when the unique index on `(name, userId)` or on
`(productId, rawMaterialId)` would be violated; on success appends the product
row and one ingredient row per input (link ids derived from the fresh product
id, which the caller supplies). -/
def productCreate (db : DB) (freshId : String) (req : CreateProductRequest)
    (totalCost : ℚ) : Option DB :=
  if db.products.any (fun p => p.name == req.name && p.userId == req.userId) then
    none
  else if (req.ingredients.map IngredientInput.rawMaterialId).Nodup then
    some { db with
      products := db.products ++
        [⟨freshId, req.name, req.additionalCost, totalCost, req.userId⟩],
      ingredients := db.ingredients ++ req.ingredients.map (fun ing =>
        ⟨freshId ++ ":" ++ ing.rawMaterialId, ing.percentage, freshId, ing.rawMaterialId⟩) }
  else
    none

/-- `createProductHandler`: checks the percentage sum against the `0.01`
tolerance, computes the total cost, creates the product; any thrown error
(missing material, unique-constraint violation) reaches the catch-all, which
responds `500 Internal server error` with the store unchanged. -/
def createProductHandler (freshId : String) (req : CreateProductRequest)
    (db : DB) : HttpResponse × DB :=
  if (1 / 100 : ℚ) < |totalPercentageOf req.ingredients - 100| then
    (⟨400, "Ingredient percentages must add up to 100%. Current sum is " ++
      toString (totalPercentageOf req.ingredients) ++ "%."⟩, db)
  else
    match calculateProductCost req.ingredients req.additionalCost req.userId db with
    | .error _ => (⟨500, "Internal server error"⟩, db)
    | .ok totalCost =>
      match productCreate db freshId req totalCost with
      | none => (⟨500, "Internal server error"⟩, db)
      | some db' => (⟨201, "created"⟩, db')

/-- The ingredient rows of a product, as `prisma`'s included
`product.ingredients` relation. -/
def productIngredientsOf (db : DB) (pid : String) : List ProductIngredient :=
  db.ingredients.filter (fun ing => ing.productId == pid)

/-- The cost of the raw material an ingredient row's foreign key resolves to
(`ingredient.rawMaterial.cost`; `0` for a dangling key, which foreign-key
integrity rules out). -/
def materialCostOf (db : DB) (rmId : String) : ℚ :=
  match db.rawMaterials.find? (fun rm => rm.id == rmId) with
  | some rm => rm.cost
  | none => 0

/-- Whether a product has an ingredient row referencing the raw material
(the `ingredients: { some: { rawMaterialId } }` filter). -/
def referencesMaterial (db : DB) (p : Product) (rmId : String) : Bool :=
  db.ingredients.any (fun ing => ing.productId == p.id && ing.rawMaterialId == rmId)

/-- `productsToUpdate` in `recalculateProductCostsForMaterial`: the tenant's
products that reference the material. -/
def affectedProducts (db : DB) (rmId userId : String) : List Product :=
  db.products.filter (fun p => p.userId == userId && referencesMaterial db p rmId)

/-- The per-product loop body of the trigger:
`Σ ingredient.rawMaterial.cost * (ingredient.percentage / 100)` over the
product's ingredient rows, plus `product.additionalCost` at the end. -/
def newTotalCostFor (db : DB) (p : Product) : ℚ :=
  (productIngredientsOf db p.id).foldl
    (fun acc ing => acc + materialCostOf db ing.rawMaterialId * (ing.percentage / 100)) 0
  + p.additionalCost

/-- One `prisma.product.update({ where: { id }, data: { totalCost } })`. -/
def applyTotalCostUpdate (db : DB) (u : String × ℚ) : DB :=
  { db with products := db.products.map (fun p =>
      if p.id == u.1 then { p with totalCost := u.2 } else p) }

/-- The detached execution of `updatePromises`: the trigger's `map` callback
is `async`, so each `prisma.product.update` is adopted by a plain Promise and
fires immediately as its own standalone query — outside any transaction.  An
individual update that fails (per the oracle `fails`) leaves only its own row
unchanged; the other updates commit regardless. -/
def runDetachedUpdates (fails : String → Bool) : DB → List (String × ℚ) → DB
  | db, [] => db
  | db, u :: rest =>
    if fails u.1 then runDetachedUpdates fails db rest
    else runDetachedUpdates fails (applyTotalCostUpdate db u) rest

/-- `recalculateProductCostsForMaterial` as the source executes it: the new
total costs are computed from the snapshot read at the start and the updates
fire as detached individual queries; `prisma.$transaction(updatePromises)`
then rejects the array (its elements are plain Promises, not PrismaPromises)
whenever any product was affected, so the call throws after the detached
updates have committed.  Returns the store left behind and whether the call
threw. -/
def recalculateDetached (fails : String → Bool) (rmId userId : String)
    (db : DB) : DB × Bool :=
  if (affectedProducts db rmId userId).isEmpty then (db, false)
  else
    (runDetachedUpdates fails db
      ((affectedProducts db rmId userId).map
        (fun p => (p.id, newTotalCostFor db p))), true)

/-- The store the trigger leaves behind when every individual detached update
succeeds (the invocation itself still throws whenever any product was
affected — see `recalculateDetached`). -/
def recalculateProductCostsForMaterial (rmId userId : String) (db : DB) : DB :=
  (recalculateDetached (fun _ => false) rmId userId db).1

/-- The store after `updateMany({ where: { id, userId }, data: { cost } })`:
the cost of every (i.e. the at most one, ids being primary keys) matching raw
material row is set. -/
def setCost (db : DB) (id userId : String) (cost : ℚ) : DB :=
  { db with rawMaterials := db.rawMaterials.map (fun rm =>
      if rm.id == id && rm.userId == userId then { rm with cost := cost } else rm) }

/-- `updateRawMaterialHandler`: `updateMany({ where: { id, userId }, data:
{ cost } })`, 404 when no row matched, then the trigger is invoked
synchronously.  When no product references the material the trigger returns
cleanly and the handler responds 200; when products are affected the
trigger's `$transaction` call throws on its plain-Promise array (the
detached updates having already fired) and the catch-all responds 500. -/
def updateRawMaterialHandler (id : String) (cost : ℚ) (userId : String)
    (db : DB) : HttpResponse × DB :=
  if (db.rawMaterials.filter
      (fun rm => rm.id == id && rm.userId == userId)).length == 0 then
    (⟨404, "Raw material not found or you do not have permission to edit it."⟩, db)
  else if (recalculateDetached (fun _ => false) id userId
      (setCost db id userId cost)).2 then
    (⟨500, "Internal server error"⟩,
      (recalculateDetached (fun _ => false) id userId (setCost db id userId cost)).1)
  else
    (⟨200, "ok"⟩,
      (recalculateDetached (fun _ => false) id userId (setCost db id userId cost)).1)

/-- `deleteRawMaterialHandler`: counts `productIngredient` rows referencing
the id (with no tenant filter), rejects with 400 when any exist, otherwise
`deleteMany({ where: { id, userId } })` and 404 when nothing matched. -/
def deleteRawMaterialHandler (id : String) (userId : String)
    (db : DB) : HttpResponse × DB :=
  let usages := (db.ingredients.filter (fun ing => ing.rawMaterialId == id)).length
  if 0 < usages then
    (⟨400, "Cannot delete. This material is used in " ++ toString usages ++
      " product(s)."⟩, db)
  else
    let remaining := db.rawMaterials.filter
      (fun rm => !(rm.id == id && rm.userId == userId))
    if db.rawMaterials.length - remaining.length == 0 then
      (⟨404, "Raw material not found or you do not have permission to delete it."⟩, db)
    else
      (⟨204, ""⟩, { db with rawMaterials := remaining })

/-- The cumulative effect of a transaction's update list on one product row. -/
def applyUpdates : List (String × ℚ) → Product → Product
  | [], p => p
  | u :: us, p =>
    applyUpdates us (if p.id == u.1 then { p with totalCost := u.2 } else p)

theorem runDetachedUpdates_noFail :
    ∀ (us : List (String × ℚ)) (db : DB),
      runDetachedUpdates (fun _ => false) db us =
        { db with products := db.products.map (applyUpdates us) }
  | [], db => by
    simp [runDetachedUpdates, applyUpdates]
  | u :: us, db => by
    simp only [runDetachedUpdates, Bool.false_eq_true, if_false]
    rw [runDetachedUpdates_noFail us (applyTotalCostUpdate db u)]
    simp [applyTotalCostUpdate, List.map_map, applyUpdates, Function.comp]

theorem applyUpdates_notMentioned :
    ∀ (us : List (String × ℚ)) (p : Product),
      (∀ u ∈ us, p.id ≠ u.1) → applyUpdates us p = p
  | [], _, _ => rfl
  | u :: us, p, h => by
    have h1 : ¬(p.id == u.1) = true := by
      simp only [beq_iff_eq]
      exact h u (List.mem_cons_self u us)
    simp only [applyUpdates, if_neg h1]
    exact applyUpdates_notMentioned us p
      (fun u' hu' => h u' (List.mem_cons_of_mem u hu'))

theorem applyUpdates_mem (c : ℚ) :
    ∀ (us : List (String × ℚ)) (p : Product),
      (us.map Prod.fst).Nodup → (p.id, c) ∈ us →
      applyUpdates us p = { p with totalCost := c }
  | [], p, _, hmem => absurd hmem (List.not_mem_nil (p.id, c))
  | u :: us, p, hnd, hmem => by
    rw [List.map_cons, List.nodup_cons] at hnd
    rcases List.mem_cons.mp hmem with heq | hmem'
    · have hid : (p.id == u.1) = true := by
        simp only [beq_iff_eq]
        exact congrArg Prod.fst heq
      have hc : u.2 = c := (congrArg Prod.snd heq).symm
      simp only [applyUpdates, if_pos hid]
      rw [hc]
      refine applyUpdates_notMentioned us _ (fun u' hu' hcontra => hnd.1 ?_)
      have hte : u.1 = u'.1 :=
        (congrArg Prod.fst heq).symm.trans (show p.id = u'.1 from hcontra)
      rw [hte]
      exact List.mem_map.mpr ⟨u', hu', rfl⟩
    · have hne : ¬(p.id == u.1) = true := by
        simp only [beq_iff_eq]
        intro hcontra
        exact hnd.1 (hcontra ▸ List.mem_map.mpr ⟨(p.id, c), hmem', rfl⟩)
      simp only [applyUpdates, if_neg hne]
      exact applyUpdates_mem c us p hnd.2 hmem'

theorem costFoldl (db : DB) :
    ∀ (l : List ProductIngredient) (acc : ℚ),
      l.foldl (fun acc ing =>
        acc + materialCostOf db ing.rawMaterialId * (ing.percentage / 100)) acc =
      acc + (l.map (fun ing =>
        ing.percentage / 100 * materialCostOf db ing.rawMaterialId)).sum
  | [], acc => by simp
  | ing :: l, acc => by
    simp only [List.foldl_cons, List.map_cons, List.sum_cons]
    rw [costFoldl db l _]
    ring

theorem newTotalCostFor_eq (db : DB) (p : Product) :
    newTotalCostFor db p = p.additionalCost +
      ((productIngredientsOf db p.id).map (fun ing =>
        ing.percentage / 100 * materialCostOf db ing.rawMaterialId)).sum := by
  unfold newTotalCostFor
  rw [costFoldl db]
  ring

/-- The per-row effect of one (failure-free) trigger invocation. -/
def recalcRow (db : DB) (rmId userId : String) (p : Product) : Product :=
  if p.userId == userId && referencesMaterial db p rmId then
    { p with totalCost := newTotalCostFor db p }
  else p

theorem applyUpdates_eq_recalcRow (rmId userId : String) (db : DB)
    (hwf : (db.products.map Product.id).Nodup) (p : Product)
    (hp : p ∈ db.products) :
    applyUpdates ((affectedProducts db rmId userId).map
      (fun q => (q.id, newTotalCostFor db q))) p = recalcRow db rmId userId p := by
  by_cases hc : (p.userId == userId && referencesMaterial db p rmId) = true
  · have haff : p ∈ affectedProducts db rmId userId := List.mem_filter.mpr ⟨hp, hc⟩
    have hmem : (p.id, newTotalCostFor db p) ∈
        (affectedProducts db rmId userId).map (fun q => (q.id, newTotalCostFor db q)) :=
      List.mem_map.mpr ⟨p, haff, rfl⟩
    have hnd : (((affectedProducts db rmId userId).map
        (fun q => (q.id, newTotalCostFor db q))).map Prod.fst).Nodup := by
      rw [List.map_map]
      exact hwf.sublist (((List.filter_sublist db.products)).map Product.id)
    rw [applyUpdates_mem (newTotalCostFor db p) _ p hnd hmem, recalcRow, if_pos hc]
  · have hnm : ∀ u ∈ (affectedProducts db rmId userId).map
        (fun q => (q.id, newTotalCostFor db q)), p.id ≠ u.1 := by
      intro u hu hcontra
      rcases List.mem_map.mp hu with ⟨q, hq, hqu⟩
      have hqid : p.id = q.id := by rw [hcontra, ← hqu]
      have hpq : p = q :=
        List.inj_on_of_nodup_map hwf hp (List.mem_filter.mp hq).1 hqid
      exact hc (hpq ▸ (List.mem_filter.mp hq).2)
    rw [applyUpdates_notMentioned _ p hnm, recalcRow, if_neg hc]

/-- The net effect of one failure-free trigger run on the store. -/
def recalcResult (rmId userId : String) (db : DB) : DB :=
  { db with products := db.products.map (recalcRow db rmId userId) }

/-- Characterisation of the normal (failure-free) trigger run: every product
row of the tenant that references the material gets the recomputed total
cost; every other row, and the other two tables, are untouched. -/
theorem recalc_char (rmId userId : String) (db : DB)
    (hwf : (db.products.map Product.id).Nodup) :
    recalculateProductCostsForMaterial rmId userId db =
      recalcResult rmId userId db := by
  unfold recalcResult
  unfold recalculateProductCostsForMaterial recalculateDetached
  by_cases he : (affectedProducts db rmId userId).isEmpty = true
  · rw [if_pos he]
    have hnil : affectedProducts db rmId userId = [] := List.isEmpty_iff.mp he
    have hid : ∀ p ∈ db.products, recalcRow db rmId userId p = p := by
      intro p hp
      have hc : ¬(p.userId == userId && referencesMaterial db p rmId) = true := by
        intro hc
        have : p ∈ affectedProducts db rmId userId := List.mem_filter.mpr ⟨hp, hc⟩
        rw [hnil] at this
        exact absurd this (List.not_mem_nil p)
      rw [recalcRow, if_neg hc]
    conv_rhs => rw [List.map_congr_left hid, List.map_id']
  · rw [if_neg he, runDetachedUpdates_noFail]
    show ({ db with products := db.products.map (applyUpdates _) } : DB) = _
    congr 1
    exact List.map_congr_left (applyUpdates_eq_recalcRow rmId userId db hwf)

/-- Demo store: tenant `u` owns Flour (cost 100) and Sugar (cost 50). -/
def demoDB : DB :=
  { rawMaterials := [⟨"flour", "Flour", 100, "u"⟩, ⟨"sugar", "Sugar", 50, "u"⟩],
    products := [],
    ingredients := [] }

/-- The ingredient list of the spec's Cake scenario: 70% Flour, 30% Sugar. -/
def demoIngs : List IngredientInput := [⟨"flour", 70⟩, ⟨"sugar", 30⟩]

/-- C2: for every list of (rawMaterialCost, percentage) pairs that resolve
for the tenant, with non-negative costs, percentages in (0,100] and
non-negative additionalCost, `calculateProductCost` returns exactly
`additionalCost + Σ (percentage/100 × rawMaterialCost)`. -/
theorem C2_cost_calculator_formula (db : DB) (userId : String)
    (ings : List IngredientInput) (additionalCost : ℚ)
    (hres : ∀ ing ∈ ings, (findFirstRawMaterial db ing.rawMaterialId userId).isSome)
    (_hcost : ∀ rm ∈ db.rawMaterials, 0 ≤ rm.cost)
    (_hpct : ∀ ing ∈ ings, 0 < ing.percentage ∧ ing.percentage ≤ 100)
    (_hadd : 0 ≤ additionalCost) :
    calculateProductCost ings additionalCost userId db =
      .ok (additionalCost + (ings.map (fun ing =>
        ing.percentage / 100 * resolvedCost db userId ing.rawMaterialId)).sum) := by
  have hcomm : ings.map (fun ing =>
        resolvedCost db userId ing.rawMaterialId * (ing.percentage / 100)) =
      ings.map (fun ing =>
        ing.percentage / 100 * resolvedCost db userId ing.rawMaterialId) :=
    List.map_congr_left (fun ing _ => mul_comm _ _)
  simp only [calculateProductCost, calcLoop_ok db userId ings 0 hres, hcomm, zero_add]
  rw [add_comm]

/-- C2 witness: the Cake scenario — additionalCost 10, (cost 100, 70%),
(cost 50, 30%) — yields exactly 95. -/
theorem C2_witness : calculateProductCost demoIngs 10 "u" demoDB = .ok 95 := by
  have h := C2_cost_calculator_formula demoDB "u" demoIngs 10
    (by decide) (by decide) (by decide) (by norm_num)
  rw [h]
  norm_num [demoIngs, demoDB, resolvedCost, findFirstRawMaterial, List.find?,
    show (("flour" : String) == "sugar") = false from by decide]

/-- The spec's failing scenario: ingredient percentages summing to 99. -/
def badReq : CreateProductRequest :=
  { name := "Cake", additionalCost := 10,
    ingredients := [⟨"flour", 70⟩, ⟨"sugar", 29⟩], userId := "u" }

/-- C3: product creation fails with the 400 validation response exactly when
the ingredient percentage sum differs from 100 by more than 0.01, and in that
case nothing is persisted. -/
theorem C3_sum_to_100_validation (freshId : String) (req : CreateProductRequest)
    (db : DB) :
    ((createProductHandler freshId req db).1.status = 400 ↔
      (1 / 100 : ℚ) < |totalPercentageOf req.ingredients - 100|) ∧
    ((1 / 100 : ℚ) < |totalPercentageOf req.ingredients - 100| →
      (createProductHandler freshId req db).2 = db) := by
  unfold createProductHandler
  by_cases hc : (1 / 100 : ℚ) < |totalPercentageOf req.ingredients - 100|
  · rw [if_pos hc]
    exact ⟨⟨fun _ => hc, fun _ => rfl⟩, fun _ => rfl⟩
  · rw [if_neg hc]
    refine ⟨⟨fun h400 => ?_, fun h => absurd h hc⟩, fun h => absurd h hc⟩
    exfalso
    split at h400
    · simp at h400
    · split at h400
      · simp at h400
      · simp at h400

/-- C3 witness: creating with percentages summing to 99 is rejected with 400
and persists nothing. -/
theorem C3_witness :
    (createProductHandler "p1" badReq demoDB).1.status = 400 ∧
    (createProductHandler "p1" badReq demoDB).2 = demoDB := by
  have hdev : (1 / 100 : ℚ) < |totalPercentageOf badReq.ingredients - 100| := by
    have hsum : totalPercentageOf badReq.ingredients = 99 := by
      norm_num [badReq, totalPercentageOf, List.foldl]
    rw [hsum, show (99 : ℚ) - 100 = -1 by norm_num, abs_neg, abs_one]
    norm_num
  exact ⟨(C3_sum_to_100_validation "p1" badReq demoDB).1.mpr hdev,
    (C3_sum_to_100_validation "p1" badReq demoDB).2 hdev⟩

theorem recalcRow_id (db : DB) (rmId userId : String) (p : Product) :
    (recalcRow db rmId userId p).id = p.id := by
  unfold recalcRow; split <;> rfl

theorem recalcRow_name (db : DB) (rmId userId : String) (p : Product) :
    (recalcRow db rmId userId p).name = p.name := by
  unfold recalcRow; split <;> rfl

theorem recalcRow_userId (db : DB) (rmId userId : String) (p : Product) :
    (recalcRow db rmId userId p).userId = p.userId := by
  unfold recalcRow; split <;> rfl

theorem recalcRow_additionalCost (db : DB) (rmId userId : String) (p : Product) :
    (recalcRow db rmId userId p).additionalCost = p.additionalCost := by
  unfold recalcRow; split <;> rfl

theorem referencesMaterial_congr (db₁ db₂ : DB) (p₁ p₂ : Product) (rmId : String)
    (hing : db₁.ingredients = db₂.ingredients) (hid : p₁.id = p₂.id) :
    referencesMaterial db₁ p₁ rmId = referencesMaterial db₂ p₂ rmId := by
  unfold referencesMaterial; rw [hing, hid]

theorem productIngredientsOf_congr (db₁ db₂ : DB) (pid₁ pid₂ : String)
    (hing : db₁.ingredients = db₂.ingredients) (hid : pid₁ = pid₂) :
    productIngredientsOf db₁ pid₁ = productIngredientsOf db₂ pid₂ := by
  unfold productIngredientsOf; rw [hing, hid]

theorem materialCostOf_congr (db₁ db₂ : DB) (rmId : String)
    (hrm : db₁.rawMaterials = db₂.rawMaterials) :
    materialCostOf db₁ rmId = materialCostOf db₂ rmId := by
  unfold materialCostOf; rw [hrm]

theorem newTotalCostFor_congr (db₁ db₂ : DB) (p₁ p₂ : Product)
    (hing : db₁.ingredients = db₂.ingredients)
    (hrm : db₁.rawMaterials = db₂.rawMaterials)
    (hid : p₁.id = p₂.id) (hadd : p₁.additionalCost = p₂.additionalCost) :
    newTotalCostFor db₁ p₁ = newTotalCostFor db₂ p₂ := by
  have hmc : materialCostOf db₁ = materialCostOf db₂ :=
    funext (fun r => materialCostOf_congr db₁ db₂ r hrm)
  unfold newTotalCostFor
  rw [productIngredientsOf_congr db₁ db₂ _ _ hing hid, hadd, hmc]

theorem recalcRow_again (db db₁ : DB) (rmId userId : String)
    (hing : db₁.ingredients = db.ingredients)
    (hrm : db₁.rawMaterials = db.rawMaterials) (q : Product) :
    recalcRow db₁ rmId userId (recalcRow db rmId userId q) =
      recalcRow db rmId userId q := by
  by_cases hcond : (q.userId == userId && referencesMaterial db q rmId) = true
  · have h1 : recalcRow db rmId userId q =
        { q with totalCost := newTotalCostFor db q } := by
      unfold recalcRow; rw [if_pos hcond]
    rw [h1]
    have hcond1 : (({ q with totalCost := newTotalCostFor db q } : Product).userId
        == userId &&
        referencesMaterial db₁ { q with totalCost := newTotalCostFor db q } rmId)
        = true := by
      rw [referencesMaterial_congr db₁ db
        { q with totalCost := newTotalCostFor db q } q rmId hing rfl]
      exact hcond
    have hval : newTotalCostFor db₁ { q with totalCost := newTotalCostFor db q } =
        newTotalCostFor db q :=
      newTotalCostFor_congr db₁ db _ q hing hrm rfl rfl
    unfold recalcRow
    rw [if_pos hcond1, hval]
  · have h1 : recalcRow db rmId userId q = q := by
      unfold recalcRow; rw [if_neg hcond]
    rw [h1]
    have hcond1 : ¬(q.userId == userId && referencesMaterial db₁ q rmId) = true := by
      rw [referencesMaterial_congr db₁ db q q rmId hing rfl]
      exact hcond
    unfold recalcRow
    rw [if_neg hcond1]

/-- C7: the recalculation trigger is idempotent — running it a second time
for the same material and tenant on the unchanged result of the first run
reproduces that result exactly (in particular every product's totalCost is
identical after both runs). -/
theorem C7_recalc_idempotent (rmId userId : String) (db : DB)
    (hwf : (db.products.map Product.id).Nodup) :
    recalculateProductCostsForMaterial rmId userId
        (recalculateProductCostsForMaterial rmId userId db) =
      recalculateProductCostsForMaterial rmId userId db := by
  rw [recalc_char rmId userId db hwf]
  have hwf1 : ((recalcResult rmId userId db).products.map Product.id).Nodup := by
    show ((db.products.map (recalcRow db rmId userId)).map Product.id).Nodup
    rw [List.map_map]
    have hcomp : (Product.id ∘ recalcRow db rmId userId) = Product.id :=
      funext (fun p => recalcRow_id db rmId userId p)
    rw [hcomp]
    exact hwf
  rw [recalc_char rmId userId _ hwf1]
  unfold recalcResult
  congr 1
  show (db.products.map (recalcRow db rmId userId)).map
      (recalcRow (recalcResult rmId userId db) rmId userId) =
    db.products.map (recalcRow db rmId userId)
  rw [List.map_map]
  refine List.map_congr_left (fun q hq => ?_)
  show recalcRow (recalcResult rmId userId db) rmId userId
      (recalcRow db rmId userId q) = recalcRow db rmId userId q
  exact recalcRow_again db _ rmId userId rfl rfl q

/-- Demo store with a product: Cake (additionalCost 10, 70% Flour + 30%
Sugar, totalCost 95) owned by tenant u. -/
def demoDBFull : DB :=
  { rawMaterials := [⟨"flour", "Flour", 100, "u"⟩, ⟨"sugar", "Sugar", 50, "u"⟩],
    products := [⟨"cake", "Cake", 10, 95, "u"⟩],
    ingredients := [⟨"i1", 70, "cake", "flour"⟩, ⟨"i2", 30, "cake", "sugar"⟩] }

/-- C7 witness: double recalculation on the demo store is a no-op relative to
single recalculation. -/
theorem C7_witness :
    recalculateProductCostsForMaterial "flour" "u"
        (recalculateProductCostsForMaterial "flour" "u" demoDBFull) =
      recalculateProductCostsForMaterial "flour" "u" demoDBFull :=
  C7_recalc_idempotent "flour" "u" demoDBFull (by decide)

/-- `demoDBFull` with Flour's cost already set to 200 (the image of
`setCost`). -/
def demoDBFull200 : DB :=
  { rawMaterials := [⟨"flour", "Flour", 200, "u"⟩, ⟨"sugar", "Sugar", 50, "u"⟩],
    products := [⟨"cake", "Cake", 10, 95, "u"⟩],
    ingredients := [⟨"i1", 70, "cake", "flour"⟩, ⟨"i2", 30, "cake", "sugar"⟩] }

/-- C1 (refuted for the cited code): UpdateCost on a material referenced by a
product never returns success — the trigger's async-mapped `updatePromises`
are plain Promises, so `$transaction` rejects and the handler's catch-all
responds 500, while the detached updates commit anyway (the final store
below has Flour at 200 and Cake recalculated to 165 despite the 500).  The
claimed 200-with-committed-recalculation state with affected products is
unreachable. -/
theorem C1_update_referenced_material_500 :
    (updateRawMaterialHandler "flour" 200 "u" demoDBFull).1 =
      ⟨500, "Internal server error"⟩ ∧
    (updateRawMaterialHandler "flour" 200 "u" demoDBFull).1.status ≠ 200 ∧
    (updateRawMaterialHandler "flour" 200 "u" demoDBFull).2 =
      { rawMaterials := [⟨"flour", "Flour", 200, "u"⟩, ⟨"sugar", "Sugar", 50, "u"⟩],
        products := [⟨"cake", "Cake", 10, 165, "u"⟩],
        ingredients := demoDBFull.ingredients } := by
  have hA : ¬((demoDBFull.rawMaterials.filter
      (fun rm => rm.id == "flour" && rm.userId == "u")).length == 0) = true := by
    decide
  have hB : (recalculateDetached (fun _ => false) "flour" "u"
      (setCost demoDBFull "flour" "u" 200)).2 = true := by decide
  have h1 : (updateRawMaterialHandler "flour" 200 "u" demoDBFull).1 =
      ⟨500, "Internal server error"⟩ := by
    unfold updateRawMaterialHandler
    rw [if_neg hA, if_pos hB]
  have hset : setCost demoDBFull "flour" "u" 200 = demoDBFull200 := by decide
  have haff : affectedProducts demoDBFull200 "flour" "u" =
      [⟨"cake", "Cake", 10, 95, "u"⟩] := by decide
  have hpiC : productIngredientsOf demoDBFull200 "cake" =
      [⟨"i1", 70, "cake", "flour"⟩, ⟨"i2", 30, "cake", "sugar"⟩] := by decide
  have hmcF : materialCostOf demoDBFull200 "flour" = 200 := by decide
  have hmcS : materialCostOf demoDBFull200 "sugar" = 50 := by decide
  have hcake : newTotalCostFor demoDBFull200 ⟨"cake", "Cake", 10, 95, "u"⟩ = 165 := by
    simp only [newTotalCostFor, hpiC, List.foldl_cons, List.foldl_nil, hmcF, hmcS]
    norm_num
  have hupd : (affectedProducts demoDBFull200 "flour" "u").map
      (fun p => (p.id, newTotalCostFor demoDBFull200 p)) =
      [("cake", (165 : ℚ))] := by
    rw [haff]
    simp only [List.map_cons, List.map_nil, hcake]
  have hne : ¬(affectedProducts demoDBFull200 "flour" "u").isEmpty = true := by
    decide
  have hrun : runDetachedUpdates (fun _ => false) demoDBFull200
      [("cake", (165 : ℚ))] =
      { demoDBFull200 with products := [⟨"cake", "Cake", 10, 165, "u"⟩] } := by
    decide
  have h2 : (updateRawMaterialHandler "flour" 200 "u" demoDBFull).2 =
      { rawMaterials := [⟨"flour", "Flour", 200, "u"⟩, ⟨"sugar", "Sugar", 50, "u"⟩],
        products := [⟨"cake", "Cake", 10, 165, "u"⟩],
        ingredients := demoDBFull.ingredients } := by
    unfold updateRawMaterialHandler
    rw [if_neg hA, if_pos hB]
    show (recalculateDetached (fun _ => false) "flour" "u"
      (setCost demoDBFull "flour" "u" 200)).1 = _
    rw [hset]
    unfold recalculateDetached
    rw [if_neg hne, hupd, hrun]
    rfl
  exact ⟨h1, by rw [h1]; decide, h2⟩

/-- Demo store with two products of tenant u referencing flour: Cake as in
`demoDBFull` and Bread (100% flour, additionalCost 0, totalCost 100). -/
def demoDBTwo : DB :=
  { rawMaterials := [⟨"flour", "Flour", 100, "u"⟩, ⟨"sugar", "Sugar", 50, "u"⟩],
    products := [⟨"cake", "Cake", 10, 95, "u"⟩, ⟨"bread", "Bread", 0, 100, "u"⟩],
    ingredients := [⟨"i1", 70, "cake", "flour"⟩, ⟨"i2", 30, "cake", "sugar"⟩,
      ⟨"i3", 100, "bread", "flour"⟩] }

/-- `demoDBTwo` with Flour's cost already set to 200. -/
def demoDBTwo200 : DB :=
  { rawMaterials := [⟨"flour", "Flour", 200, "u"⟩, ⟨"sugar", "Sugar", 50, "u"⟩],
    products := [⟨"cake", "Cake", 10, 95, "u"⟩, ⟨"bread", "Bread", 0, 100, "u"⟩],
    ingredients := [⟨"i1", 70, "cake", "flour"⟩, ⟨"i2", 30, "cake", "sugar"⟩,
      ⟨"i3", 100, "bread", "flour"⟩] }

/-- C6 (refuted for the cited code): the trigger's updates execute as
individual detached queries outside any transaction, so with two affected
products and a failure on the second update, the first product's totalCost
is already committed while the second stays stale — not all-or-nothing.
(Second conjunct: what a fully successful run writes, for contrast.) -/
theorem C6_partial_commit :
    (recalculateDetached (fun pid => pid == "bread") "flour" "u"
        (setCost demoDBTwo "flour" "u" 200)).1.products =
      [⟨"cake", "Cake", 10, 165, "u"⟩, ⟨"bread", "Bread", 0, 100, "u"⟩] ∧
    (recalculateDetached (fun _ => false) "flour" "u"
        (setCost demoDBTwo "flour" "u" 200)).1.products =
      [⟨"cake", "Cake", 10, 165, "u"⟩, ⟨"bread", "Bread", 0, 200, "u"⟩] := by
  have hset : setCost demoDBTwo "flour" "u" 200 = demoDBTwo200 := by decide
  have haff : affectedProducts demoDBTwo200 "flour" "u" =
      [⟨"cake", "Cake", 10, 95, "u"⟩, ⟨"bread", "Bread", 0, 100, "u"⟩] := by decide
  have hpiC : productIngredientsOf demoDBTwo200 "cake" =
      [⟨"i1", 70, "cake", "flour"⟩, ⟨"i2", 30, "cake", "sugar"⟩] := by decide
  have hpiB : productIngredientsOf demoDBTwo200 "bread" =
      [⟨"i3", 100, "bread", "flour"⟩] := by decide
  have hmcF : materialCostOf demoDBTwo200 "flour" = 200 := by decide
  have hmcS : materialCostOf demoDBTwo200 "sugar" = 50 := by decide
  have hcake : newTotalCostFor demoDBTwo200 ⟨"cake", "Cake", 10, 95, "u"⟩ = 165 := by
    simp only [newTotalCostFor, hpiC, List.foldl_cons, List.foldl_nil, hmcF, hmcS]
    norm_num
  have hbread : newTotalCostFor demoDBTwo200 ⟨"bread", "Bread", 0, 100, "u"⟩ = 200 := by
    simp only [newTotalCostFor, hpiB, List.foldl_cons, List.foldl_nil, hmcF]
    norm_num
  have hupd : (affectedProducts demoDBTwo200 "flour" "u").map
      (fun p => (p.id, newTotalCostFor demoDBTwo200 p)) =
      [("cake", (165 : ℚ)), ("bread", (200 : ℚ))] := by
    rw [haff]
    simp only [List.map_cons, List.map_nil, hcake, hbread]
  have hne : ¬(affectedProducts demoDBTwo200 "flour" "u").isEmpty = true := by
    decide
  have hrunF : runDetachedUpdates (fun pid => pid == "bread") demoDBTwo200
      [("cake", (165 : ℚ)), ("bread", (200 : ℚ))] =
      { demoDBTwo200 with products :=
        [⟨"cake", "Cake", 10, 165, "u"⟩, ⟨"bread", "Bread", 0, 100, "u"⟩] } := by
    decide
  have hrunT : runDetachedUpdates (fun _ => false) demoDBTwo200
      [("cake", (165 : ℚ)), ("bread", (200 : ℚ))] =
      { demoDBTwo200 with products :=
        [⟨"cake", "Cake", 10, 165, "u"⟩, ⟨"bread", "Bread", 0, 200, "u"⟩] } := by
    decide
  constructor
  · rw [hset]
    unfold recalculateDetached
    rw [if_neg hne, hupd, hrunF]
  · rw [hset]
    unfold recalculateDetached
    rw [if_neg hne, hupd, hrunT]

theorem forall₂_map_self {α : Type} (r : α → α → Prop) (f : α → α) :
    ∀ (l : List α), (∀ a ∈ l, r a (f a)) → List.Forall₂ r l (l.map f)
  | [], _ => List.Forall₂.nil
  | a :: l, h => List.Forall₂.cons (h a (List.mem_cons_self a l))
      (forall₂_map_self r f l (fun b hb => h b (List.mem_cons_of_mem a hb)))

theorem recalculateDetached_not_thrown (fails : String → Bool)
    (rmId userId : String) (db : DB)
    (h : ¬(recalculateDetached fails rmId userId db).2 = true) :
    recalculateDetached fails rmId userId db = (db, false) := by
  unfold recalculateDetached at h ⊢
  by_cases he : (affectedProducts db rmId userId).isEmpty = true
  · rw [if_pos he]
  · rw [if_neg he] at h
    simp at h

/-- C10: frame property of a successful UpdateCost — the ingredient table is
untouched; every raw material row keeps its id, name and owner, and any row
other than the targeted (id, tenant) one is completely unchanged; every
product row keeps its id, name, additionalCost and owner, and any product
that is not the tenant's or does not reference the material is completely
unchanged.  In particular no record of any other tenant changes.  (A 200
response occurs exactly when no product of the tenant references the
material — the trigger throws otherwise — so on every successful run the
store changes only in the targeted material's cost.) -/
theorem C10_update_cost_frame (tenant id : String) (newCost : ℚ) (db : DB)
    (resp : HttpResponse) (db' : DB)
    (hrun : updateRawMaterialHandler id newCost tenant db = (resp, db'))
    (hok : resp.status = 200) :
    db'.ingredients = db.ingredients ∧
    List.Forall₂ (fun rm rm' => rm'.id = rm.id ∧ rm'.name = rm.name ∧
        rm'.userId = rm.userId ∧
        (¬(rm.id = id ∧ rm.userId = tenant) → rm' = rm))
      db.rawMaterials db'.rawMaterials ∧
    List.Forall₂ (fun p p' => p'.id = p.id ∧ p'.name = p.name ∧
        p'.additionalCost = p.additionalCost ∧ p'.userId = p.userId ∧
        (¬(p.userId = tenant ∧ referencesMaterial db p id = true) → p' = p))
      db.products db'.products := by
  unfold updateRawMaterialHandler at hrun
  split at hrun
  · injection hrun with h1 h2
    rw [← h1] at hok
    simp at hok
  · split at hrun
    · injection hrun with h1 h2
      rw [← h1] at hok
      simp at hok
    · rename_i hA hB
      injection hrun with h1 h2
      rw [recalculateDetached_not_thrown _ _ _ _ hB] at h2
      subst h2
      refine ⟨rfl, ?_, ?_⟩
      · show List.Forall₂ _ db.rawMaterials (db.rawMaterials.map (fun rm =>
          if rm.id == id && rm.userId == tenant then { rm with cost := newCost }
          else rm))
        refine forall₂_map_self _ _ db.rawMaterials (fun rm hrm => ?_)
        by_cases hc : (rm.id == id && rm.userId == tenant) = true
        · rw [if_pos hc]
          refine ⟨rfl, rfl, rfl, fun hno => ?_⟩
          rw [Bool.and_eq_true, beq_iff_eq, beq_iff_eq] at hc
          exact absurd hc hno
        · rw [if_neg hc]
          exact ⟨rfl, rfl, rfl, fun _ => rfl⟩
      · show List.Forall₂ _ db.products db.products
        exact List.forall₂_same.mpr
          (fun p hp => ⟨rfl, rfl, rfl, rfl, fun _ => rfl⟩)

/-- C10 witness: a successful update (a material no product references)
touches nothing except that material's cost. -/
theorem C10_witness :
    (updateRawMaterialHandler "flour" 200 "u" demoDB).2.ingredients =
      demoDB.ingredients ∧
    List.Forall₂ (fun rm rm' => rm'.id = rm.id ∧ rm'.name = rm.name ∧
        rm'.userId = rm.userId ∧
        (¬(rm.id = "flour" ∧ rm.userId = "u") → rm' = rm))
      demoDB.rawMaterials
      (updateRawMaterialHandler "flour" 200 "u" demoDB).2.rawMaterials ∧
    List.Forall₂ (fun p p' => p'.id = p.id ∧ p'.name = p.name ∧
        p'.additionalCost = p.additionalCost ∧ p'.userId = p.userId ∧
        (¬(p.userId = "u" ∧ referencesMaterial demoDB p "flour" = true) →
          p' = p))
      demoDB.products
      (updateRawMaterialHandler "flour" 200 "u" demoDB).2.products :=
  C10_update_cost_frame "u" "flour" 200 demoDB
    (updateRawMaterialHandler "flour" 200 "u" demoDB).1
    (updateRawMaterialHandler "flour" 200 "u" demoDB).2 rfl (by decide)

/-- C8: deleting a raw material that is referenced by at least one product
ingredient fails with the 400 reject-if-referenced response, and the store —
every product with its totalCost, and the material itself — is unchanged. -/
theorem C8_delete_referenced_rejected (id userId : String) (db : DB)
    (href : ∃ ing ∈ db.ingredients, ing.rawMaterialId = id) :
    (deleteRawMaterialHandler id userId db).1.status = 400 ∧
    (deleteRawMaterialHandler id userId db).2 = db := by
  have husage :
      0 < (db.ingredients.filter (fun ing => ing.rawMaterialId == id)).length := by
    rcases href with ⟨ing, hing, hid⟩
    have hmem : ing ∈ db.ingredients.filter (fun ing => ing.rawMaterialId == id) :=
      List.mem_filter.mpr ⟨hing, by rw [beq_iff_eq]; exact hid⟩
    exact List.length_pos.mpr (List.ne_nil_of_mem hmem)
  unfold deleteRawMaterialHandler
  rw [if_pos husage]
  exact ⟨rfl, rfl⟩

/-- C8 witness: Flour is referenced by Cake, so deleting it is rejected with
400 and the demo store is unchanged. -/
theorem C8_witness :
    (deleteRawMaterialHandler "flour" "u" demoDBFull).1.status = 400 ∧
    (deleteRawMaterialHandler "flour" "u" demoDBFull).2 = demoDBFull :=
  C8_delete_referenced_rejected "flour" "u" demoDBFull (by decide)

/-- Store where tenant bob owns material bFlour, referenced by bob's own
product; alice owns an unrelated material. -/
def dbBobRef : DB :=
  { rawMaterials := [⟨"aSalt", "Salt", 5, "alice"⟩, ⟨"bFlour", "Flour", 100, "bob"⟩],
    products := [⟨"bBread", "Bread", 1, 101, "bob"⟩],
    ingredients := [⟨"bi", 100, "bBread", "bFlour"⟩] }

/-- The same store from alice's point of view with bob's data absent: the
requested material id does not exist at all. -/
def dbNoMat : DB :=
  { rawMaterials := [⟨"aSalt", "Salt", 5, "alice"⟩],
    products := [],
    ingredients := [] }

/-- C9 (refuted): the response alice receives for deleting bob's material id
depends on bob's ingredient rows — 400 with a usage count when bob's product
references the material, 404 when the id does not exist.  The usage check
runs with no tenant filter before the ownership check, so the two cases are
distinguishable and the existence of another tenant's data leaks. -/
theorem C9_delete_leaks_existence :
    (deleteRawMaterialHandler "bFlour" "alice" dbBobRef).1 =
      ⟨400, "Cannot delete. This material is used in 1 product(s)."⟩ ∧
    (deleteRawMaterialHandler "bFlour" "alice" dbNoMat).1 =
      ⟨404, "Raw material not found or you do not have permission to delete it."⟩ ∧
    (deleteRawMaterialHandler "bFlour" "alice" dbBobRef).1 ≠
      (deleteRawMaterialHandler "bFlour" "alice" dbNoMat).1 := by
  refine ⟨?_, ?_, ?_⟩ <;> decide

/-- A create request that duplicates the demo store's Cake for tenant u. -/
def dupReq : CreateProductRequest :=
  { name := "Cake", additionalCost := 10,
    ingredients := [⟨"flour", 100⟩], userId := "u" }

/-- C4 counterexample: the second "Cake" create for tenant u responds with
the generic 500 Internal server error — not a conflict error — though no
second product is persisted. -/
theorem C4_counterexample :
    (createProductHandler "p2" dupReq demoDBFull).1 =
      ⟨500, "Internal server error"⟩ ∧
    (createProductHandler "p2" dupReq demoDBFull).1.status ≠ 409 ∧
    (createProductHandler "p2" dupReq demoDBFull).2 = demoDBFull := by
  have hsum : ¬((1 / 100 : ℚ) < |totalPercentageOf dupReq.ingredients - 100|) := by
    have h : totalPercentageOf dupReq.ingredients = 100 := by
      norm_num [dupReq, totalPercentageOf, List.foldl]
    rw [h, sub_self, abs_zero]
    norm_num
  unfold createProductHandler
  rw [if_neg hsum]
  exact ⟨rfl, by decide, rfl⟩

/-- C4 (amended): a create whose (tenant, name) duplicates an existing
product and which passes the percentage check never creates a second
product — the unique index makes the create throw — but the error surfaced
to the caller is the generic 500 Internal server error, not a conflict
error. -/
theorem C4_duplicate_name_500 (freshId : String) (req : CreateProductRequest)
    (db : DB)
    (hdup : ∃ p ∈ db.products, p.name = req.name ∧ p.userId = req.userId)
    (hsum : ¬((1 / 100 : ℚ) < |totalPercentageOf req.ingredients - 100|)) :
    (createProductHandler freshId req db).1 = ⟨500, "Internal server error"⟩ ∧
    (createProductHandler freshId req db).2 = db := by
  unfold createProductHandler
  rw [if_neg hsum]
  have hany : (db.products.any
      (fun p => p.name == req.name && p.userId == req.userId)) = true := by
    rcases hdup with ⟨p, hp, hname, huid⟩
    refine List.any_eq_true.mpr ⟨p, hp, ?_⟩
    rw [Bool.and_eq_true, beq_iff_eq, beq_iff_eq]
    exact ⟨hname, huid⟩
  split
  · exact ⟨rfl, rfl⟩
  · rename_i t heq
    have hcr : productCreate db freshId req t = none := by
      unfold productCreate
      rw [if_pos hany]
    rw [hcr]
    exact ⟨rfl, rfl⟩

/-- C4 witness: the amended behaviour on the demo store — duplicate Cake
create yields 500 and no change. -/
theorem C4_witness :
    (createProductHandler "p9" dupReq demoDBFull).1 =
      ⟨500, "Internal server error"⟩ ∧
    (createProductHandler "p9" dupReq demoDBFull).2 = demoDBFull :=
  C4_duplicate_name_500 "p9" dupReq demoDBFull (by decide)
    (by
      have h : totalPercentageOf dupReq.ingredients = 100 := by
        norm_num [dupReq, totalPercentageOf, List.foldl]
      rw [h, sub_self, abs_zero]
      norm_num)

theorem calcLoop_error (db : DB) (userId : String) :
    ∀ (ings : List IngredientInput) (acc : ℚ),
      (∃ ing ∈ ings, findFirstRawMaterial db ing.rawMaterialId userId = none) →
      ∃ e, calcLoop db userId ings acc = .error e
  | [], _, h => by
    rcases h with ⟨ing, hin, _⟩
    exact absurd hin (List.not_mem_nil ing)
  | ing :: rest, acc, h => by
    cases hrm : findFirstRawMaterial db ing.rawMaterialId userId with
    | none => exact ⟨"Raw material with ID " ++ ing.rawMaterialId ++ " not found.",
        by simp [calcLoop, hrm]⟩
    | some rm =>
      rcases h with ⟨ing', hin', hnone⟩
      rcases List.mem_cons.mp hin' with heq | hin''
      · rw [heq] at hnone
        rw [hnone] at hrm
        exact absurd hrm (by simp)
      · rcases calcLoop_error db userId rest
          (acc + rm.cost * (ing.percentage / 100)) ⟨ing', hin'', hnone⟩ with ⟨e, he⟩
        exact ⟨e, by simp only [calcLoop, hrm]; exact he⟩

/-- A create request referencing a material id that does not exist. -/
def ghostReq : CreateProductRequest :=
  { name := "Ghost", additionalCost := 0,
    ingredients := [⟨"ghost", 100⟩], userId := "u" }

/-- C5 counterexample: creating with an unknown material id fails and
persists nothing, but the response is the generic 500 Internal server
error — not a validation/not-found error naming the offending id. -/
theorem C5_counterexample :
    (createProductHandler "p3" ghostReq demoDBFull).1 =
      ⟨500, "Internal server error"⟩ ∧
    (createProductHandler "p3" ghostReq demoDBFull).2 = demoDBFull := by
  have hsum : ¬((1 / 100 : ℚ) < |totalPercentageOf ghostReq.ingredients - 100|) := by
    have h : totalPercentageOf ghostReq.ingredients = 100 := by
      norm_num [ghostReq, totalPercentageOf, List.foldl]
    rw [h, sub_self, abs_zero]
    norm_num
  unfold createProductHandler
  rw [if_neg hsum]
  exact ⟨rfl, rfl⟩

/-- C5 (amended): when some referenced rawMaterialId does not resolve for
the requesting tenant (it does not exist or belongs to another tenant) and
the percentage check passes, creation never succeeds and nothing is
persisted; the cost calculation throws an error naming the id internally,
but the caller receives the generic 500 Internal server error. -/
theorem C5_missing_material_500 (freshId : String) (req : CreateProductRequest)
    (db : DB)
    (hmiss : ∃ ing ∈ req.ingredients,
      findFirstRawMaterial db ing.rawMaterialId req.userId = none)
    (hsum : ¬((1 / 100 : ℚ) < |totalPercentageOf req.ingredients - 100|)) :
    (createProductHandler freshId req db).1 = ⟨500, "Internal server error"⟩ ∧
    (createProductHandler freshId req db).2 = db := by
  unfold createProductHandler
  rw [if_neg hsum]
  rcases calcLoop_error db req.userId req.ingredients 0 hmiss with ⟨e, he⟩
  have hcalc : calculateProductCost req.ingredients req.additionalCost
      req.userId db = .error e := by
    unfold calculateProductCost
    rw [he]
  rw [hcalc]
  exact ⟨rfl, rfl⟩

/-- C5 witness: the amended behaviour on the demo store — a create naming an
unknown id yields 500 and no change. -/
theorem C5_witness :
    (createProductHandler "p4" ghostReq demoDBFull).1 =
      ⟨500, "Internal server error"⟩ ∧
    (createProductHandler "p4" ghostReq demoDBFull).2 = demoDBFull :=
  C5_missing_material_500 "p4" ghostReq demoDBFull (by decide)
    (by
      have h : totalPercentageOf ghostReq.ingredients = 100 := by
        norm_num [ghostReq, totalPercentageOf, List.foldl]
      rw [h, sub_self, abs_zero]
      norm_num)

end AutoCost
